import Mathlib

/-!
# Verification of the heart-rate alert engine of `pebble-potsface`

Shallow embedding of the heart-rate alert engine found in `src/c/main.c`:
the bounded, age-pruned raw-sample window (`prv_prune_old_hr_samples`,
`prv_store_raw_hr_sample`), the window spread (`prv_calculate_window_delta_bpm`),
the alert state machine (`prv_evaluate_hr_alert`, `prv_set_hr_alert_active`,
`hr_alert_timer_callback`), the tick entry point (`prv_handle_heart_rate_update`),
the display formatter (`prv_update_hr_display`) and the alert-relevant part of
`deinit`.

Modelling conventions:
* `HealthValue` (a signed platform integer) is modelled as `Int`; `time_t` as
  `Int` seconds.
* The parallel C arrays `s_hr_sample_times` / `s_hr_sample_values` together with
  `s_hr_sample_count` are modelled as a single oldest-first `List Sample`.
* The platform call `app_timer_register(HR_ALERT_WINDOW_SEC * 1000, ...)`
  (milliseconds) is modelled in seconds: a successfully registered timer is
  recorded as its absolute expiry time `now + HR_ALERT_WINDOW_SEC`; a `NULL`
  result of `app_timer_register` (registration failure) is modelled by the
  boolean parameter `regOk`.  The `vibes_short_pulse()` side effect is modelled
  by the counter `vibeCount`.
-/

/-- `#define HR_ALERT_DELTA_BPM 30` — the spread threshold `T`. -/
def HR_ALERT_DELTA_BPM : Nat := 30

/-- `#define HR_ALERT_WINDOW_SEC 60` — the window / sustain duration `W`. -/
def HR_ALERT_WINDOW_SEC : Int := 60

/-- `#define HR_SAMPLE_BUFFER_SIZE 96` — the buffer capacity `N`. -/
def HR_SAMPLE_BUFFER_SIZE : Nat := 96

/-- One raw heart-rate sample: a `(timestamp, value)` pair, mirroring one slot
of the parallel arrays `s_hr_sample_times` / `s_hr_sample_values`. -/
structure Sample where
  timestamp : Int
  value : Int
deriving DecidableEq, Repr

/-- One health-metric reading offered by the platform this tick:
`accessible` mirrors `health_service_metric_accessible` reporting
`HealthServiceAccessibilityMaskAvailable`, `value` mirrors
`health_service_peek_current_value`. -/
structure MetricReading where
  accessible : Bool
  value : Int
deriving DecidableEq, Repr

/-- `prv_get_heart_rate_metric`: the current reading when available and
positive, otherwise `0`. -/
def prv_get_heart_rate_metric (r : MetricReading) : Int :=
  if !r.accessible then 0
  else if r.value > 0 then r.value else 0

/-- `prv_prune_old_hr_samples`: repeatedly shift out the oldest sample while it
is older than `HR_ALERT_WINDOW_SEC` relative to `now`. -/
def prv_prune_old_hr_samples (now : Int) : List Sample → List Sample
  | [] => []
  | s :: rest =>
      if now - s.timestamp > HR_ALERT_WINDOW_SEC then
        prv_prune_old_hr_samples now rest
      else
        s :: rest

/-- `prv_store_raw_hr_sample`: drop non-positive readings; otherwise prune,
evict the single oldest sample if the buffer is at capacity, and append
`(now, raw_hr)` at the back. -/
def prv_store_raw_hr_sample (raw_hr : Int) (now : Int) (buf : List Sample) :
    List Sample :=
  if raw_hr ≤ 0 then buf
  else
    let pruned := prv_prune_old_hr_samples now buf
    let bounded :=
      if HR_SAMPLE_BUFFER_SIZE ≤ pruned.length then pruned.tail else pruned
    bounded ++ [⟨now, raw_hr⟩]

/-- `prv_calculate_window_delta_bpm`: `0` for fewer than two samples, otherwise
the running max minus the running min of the stored values, scanned from
index 1 with both accumulators initialised to the value at index 0. -/
def prv_calculate_window_delta_bpm (buf : List Sample) : Nat :=
  match buf with
  | [] => 0
  | [_] => 0
  | s :: rest =>
      let min_value :=
        rest.foldl (fun m x => if x.value < m then x.value else m) s.value
      let max_value :=
        rest.foldl (fun m x => if m < x.value then x.value else m) s.value
      (max_value - min_value).toNat

/-- The engine's alert-relevant static state (`s_hr_sample_*`,
`s_hr_alert_active`, `s_hr_alert_timer`, `s_last_filtered_hr`, `s_last_raw_hr`,
`s_last_window_delta`) plus the `vibeCount` instrumentation counting
`vibes_short_pulse()` calls. -/
structure EngineState where
  samples : List Sample
  alertActive : Bool
  alertTimer : Option Int
  lastFilteredHr : Int
  lastRawHr : Int
  lastWindowDelta : Nat
  vibeCount : Nat
deriving DecidableEq, Repr

/-- The `if (s_hr_alert_timer) { app_timer_cancel(...); s_hr_alert_timer = NULL; }`
guard shared by `prv_set_hr_alert_active` and `deinit`. -/
def cancelAlertTimer (st : EngineState) : EngineState :=
  if st.alertTimer.isSome then { st with alertTimer := none } else st

/-- `prv_set_hr_alert_active`: cancel any pending timer, set the flag, and when
activating, register a fresh `HR_ALERT_WINDOW_SEC` one-shot timer.  `regOk`
models whether `app_timer_register` succeeds (the C code never checks its
result; on failure `s_hr_alert_timer` stays `NULL`). -/
def prv_set_hr_alert_active (active : Bool) (regOk : Bool) (now : Int)
    (st : EngineState) : EngineState :=
  let st1 := cancelAlertTimer st
  let st2 := { st1 with alertActive := active }
  if active then
    { st2 with
        alertTimer := if regOk then some (now + HR_ALERT_WINDOW_SEC) else none }
  else st2

/-- `hr_alert_timer_callback`: the sustain-timer expiry clears the timer handle
and the active flag, touching nothing else. -/
def hr_alert_timer_callback (st : EngineState) : EngineState :=
  { st with alertTimer := none, alertActive := false }

/-- `prv_evaluate_hr_alert`: below the threshold do nothing; at or above it,
pulse the vibration only when not already alerting, then (re)activate. -/
def prv_evaluate_hr_alert (delta_bpm : Nat) (now : Int) (regOk : Bool)
    (st : EngineState) : EngineState :=
  if delta_bpm < HR_ALERT_DELTA_BPM then st
  else
    let st1 :=
      if st.alertActive then st else { st with vibeCount := st.vibeCount + 1 }
    prv_set_hr_alert_active true regOk now st1

/-- `prv_handle_heart_rate_update`: refresh both metric readings, and when the
raw reading is positive, record it, recompute the window delta, and evaluate
the alert. -/
def prv_handle_heart_rate_update (fm rm : MetricReading) (now : Int)
    (regOk : Bool) (st : EngineState) : EngineState :=
  let st0 := { st with
      lastFilteredHr := prv_get_heart_rate_metric fm,
      lastRawHr := prv_get_heart_rate_metric rm }
  if st0.lastRawHr > 0 then
    let samples1 := prv_store_raw_hr_sample st0.lastRawHr now st0.samples
    let delta := prv_calculate_window_delta_bpm samples1
    prv_evaluate_hr_alert delta now regOk
      { st0 with samples := samples1, lastWindowDelta := delta }
  else st0

/-- `prv_update_hr_display`: the rendered heart-rate line. -/
def prv_update_hr_display (st : EngineState) : String :=
  if st.lastFilteredHr > 0 then
    toString st.lastFilteredHr ++ " BPM | Δ" ++ toString st.lastWindowDelta
  else "-- BPM"

/-- The alert-relevant part of `deinit`: the guarded cancellation of the
sustain timer (the active flag is not cleared). -/
def deinit (st : EngineState) : EngineState :=
  cancelAlertTimer st

/-- Modelled from the spec: the platform timer service (external to this
repository) fires a registered one-shot timer exactly at its scheduled expiry.
With no intervening engine event, the alert therefore reads active at wall
time `t` iff the flag is set and any armed expiry is still strictly in the
future; an active flag with no armed timer never clears. -/
def alertActiveAt (st : EngineState) (t : Int) : Bool :=
  st.alertActive &&
    (match st.alertTimer with
     | some e => decide (t < e)
     | none => true)

/-- One invocation of the engine's tick entry point: the two metric readings
offered by the platform, the current time, and whether `app_timer_register`
would succeed on this tick. -/
structure TickInput where
  fm : MetricReading
  rm : MetricReading
  now : Int
  regOk : Bool
deriving DecidableEq, Repr

/-- One engine tick: `prv_handle_heart_rate_update` on the given inputs. -/
def applyTick (st : EngineState) (i : TickInput) : EngineState :=
  prv_handle_heart_rate_update i.fm i.rm i.now i.regOk st

/-- A sequence of engine ticks, oldest first. -/
def runTicks (st : EngineState) (is : List TickInput) : EngineState :=
  is.foldl applyTick st

/-- The window delta this tick would compute after recording its raw reading. -/
def tickDelta (st : EngineState) (i : TickInput) : Nat :=
  prv_calculate_window_delta_bpm
    (prv_store_raw_hr_sample (prv_get_heart_rate_metric i.rm) i.now st.samples)

/-- A qualifying tick: the raw metric reading is positive (so it is recorded)
and the resulting window spread meets the alert threshold. -/
def tickQualifies (st : EngineState) (i : TickInput) : Bool :=
  decide (0 < prv_get_heart_rate_metric i.rm) &&
  decide (HR_ALERT_DELTA_BPM ≤ tickDelta st i)

/-- A run of consecutive qualifying ticks within the current alert episode:
each tick occurs strictly before the armed sustain-timer expiry (so the alert
is still up), its timer registration succeeds, and it qualifies. -/
def qualStreak : EngineState → List TickInput → Bool
  | _, [] => true
  | st, i :: is =>
      (match st.alertTimer with
       | some e => decide (i.now < e)
       | none => false) &&
      i.regOk && tickQualifies st i && qualStreak (applyTick st i) is

/-- The sample recorded for the input pair `(now, raw)`. -/
def toSample (i : Int × Int) : Sample := ⟨i.1, i.2⟩

/-- Folding `prv_store_raw_hr_sample` over a list of `(now, raw)` inputs,
oldest first — the driver's repeated record operation. -/
def runStore (buf : List Sample) (inputs : List (Int × Int)) : List Sample :=
  inputs.foldl (fun b i => prv_store_raw_hr_sample i.2 i.1 b) buf

/-- The inputs arrive in time order and all fall within one window duration
of each other ("recording N + k valid samples all within the window
duration"). -/
def RecWindowed (inputs : List (Int × Int)) : Prop :=
  List.Pairwise (fun a b => a.1 ≤ b.1 ∧ b.1 - a.1 ≤ HR_ALERT_WINDOW_SEC) inputs

/-- The implicit alert/timer coupling invariant of C10: the alert flag is set
exactly when a sustain timer is armed. -/
def AlertTimerInv (st : EngineState) : Prop :=
  st.alertActive = st.alertTimer.isSome

/-! ## Helper lemmas on the code's running min/max folds -/

lemma foldl_code_min_eq (v : Int) (l : List Sample) :
    l.foldl (fun m x => if x.value < m then x.value else m) v
      = l.foldl (fun m x => min m x.value) v := by
  induction l generalizing v with
  | nil => rfl
  | cons x xs ih =>
      simp only [List.foldl_cons]
      rw [ih]
      congr 1
      rcases lt_or_ge x.value v with h | h
      · rw [if_pos h, min_eq_right h.le]
      · rw [if_neg (not_lt.mpr h), min_eq_left h]

lemma foldl_code_max_eq (v : Int) (l : List Sample) :
    l.foldl (fun m x => if m < x.value then x.value else m) v
      = l.foldl (fun m x => max m x.value) v := by
  induction l generalizing v with
  | nil => rfl
  | cons x xs ih =>
      simp only [List.foldl_cons]
      rw [ih]
      congr 1
      rcases lt_or_ge v x.value with h | h
      · rw [if_pos h, max_eq_right h.le]
      · rw [if_neg (not_lt.mpr h), max_eq_left h]

lemma foldl_max_spec (v : Int) (l : List Sample) :
    (l.foldl (fun m x => max m x.value) v = v ∨
      ∃ s ∈ l, l.foldl (fun m x => max m x.value) v = s.value) ∧
    v ≤ l.foldl (fun m x => max m x.value) v ∧
    ∀ s ∈ l, s.value ≤ l.foldl (fun m x => max m x.value) v := by
  induction l generalizing v with
  | nil => exact ⟨Or.inl rfl, le_refl v, by simp⟩
  | cons x xs ih =>
      obtain ⟨hmem, hle, hub⟩ := ih (max v x.value)
      refine ⟨?_, ?_, ?_⟩
      · rcases hmem with h | ⟨s, hs, h⟩
        · rcases max_cases v x.value with ⟨he, _⟩ | ⟨he, _⟩
          · exact Or.inl (by simpa [List.foldl_cons, he] using h)
          · exact Or.inr ⟨x, List.mem_cons_self x xs, by
              simpa [List.foldl_cons, he] using h⟩
        · exact Or.inr ⟨s, List.mem_cons_of_mem x hs, by
            simpa [List.foldl_cons] using h⟩
      · exact le_trans (le_max_left v x.value) (by simpa [List.foldl_cons] using hle)
      · intro s hs
        rcases List.mem_cons.mp hs with h | h
        · subst h
          exact le_trans (le_max_right v s.value)
            (by simpa [List.foldl_cons] using hle)
        · simpa [List.foldl_cons] using hub s h

lemma foldl_min_spec (v : Int) (l : List Sample) :
    (l.foldl (fun m x => min m x.value) v = v ∨
      ∃ s ∈ l, l.foldl (fun m x => min m x.value) v = s.value) ∧
    l.foldl (fun m x => min m x.value) v ≤ v ∧
    ∀ s ∈ l, l.foldl (fun m x => min m x.value) v ≤ s.value := by
  induction l generalizing v with
  | nil => exact ⟨Or.inl rfl, le_refl v, by simp⟩
  | cons x xs ih =>
      obtain ⟨hmem, hle, hlb⟩ := ih (min v x.value)
      refine ⟨?_, ?_, ?_⟩
      · rcases hmem with h | ⟨s, hs, h⟩
        · rcases min_cases v x.value with ⟨he, _⟩ | ⟨he, _⟩
          · exact Or.inl (by simpa [List.foldl_cons, he] using h)
          · exact Or.inr ⟨x, List.mem_cons_self x xs, by
              simpa [List.foldl_cons, he] using h⟩
        · exact Or.inr ⟨s, List.mem_cons_of_mem x hs, by
            simpa [List.foldl_cons] using h⟩
      · exact le_trans (by simpa [List.foldl_cons] using hle) (min_le_left v x.value)
      · intro s hs
        rcases List.mem_cons.mp hs with h | h
        · subst h
          exact le_trans (by simpa [List.foldl_cons] using hle)
            (min_le_right v s.value)
        · simpa [List.foldl_cons] using hlb s h

/-! ## C1: spread = max − min, and 0 for fewer than 2 samples -/

/-- C1: for every state of the sample window, `prv_calculate_window_delta_bpm`
returns the maximum stored value minus the minimum stored value over all
currently retained samples (witnessed by actual members of the window that
bound every stored value), and returns `0` whenever fewer than 2 samples are
retained. -/
theorem calculate_window_delta_spec (buf : List Sample) :
    (buf.length < 2 → prv_calculate_window_delta_bpm buf = 0) ∧
    (2 ≤ buf.length →
      ∃ mx ∈ buf, ∃ mn ∈ buf,
        (∀ s ∈ buf, s.value ≤ mx.value) ∧
        (∀ s ∈ buf, mn.value ≤ s.value) ∧
        (prv_calculate_window_delta_bpm buf : Int) = mx.value - mn.value) := by
  constructor
  · intro h
    match buf, h with
    | [], _ => rfl
    | [_], _ => rfl
  · intro h
    match buf, h with
    | s :: x :: rest, _ =>
      set l := x :: rest with hl
      obtain ⟨hmaxmem, hmaxge, hmaxub⟩ := foldl_max_spec s.value l
      obtain ⟨hminmem, hminle, hminlb⟩ := foldl_min_spec s.value l
      set M := l.foldl (fun m x => max m x.value) s.value with hM
      set m := l.foldl (fun m x => min m x.value) s.value with hm
      have hdelta : prv_calculate_window_delta_bpm (s :: l) = (M - m).toNat := by
        show (l.foldl (fun m x => if m < x.value then x.value else m) s.value -
              l.foldl (fun m x => if x.value < m then x.value else m) s.value).toNat
            = (M - m).toNat
        rw [foldl_code_max_eq, foldl_code_min_eq]
      have hmle : m ≤ M := le_trans hminle hmaxge
      have hub : ∀ t ∈ s :: l, t.value ≤ M := by
        intro t ht
        rcases List.mem_cons.mp ht with h | h
        · subst h; exact hmaxge
        · exact hmaxub t h
      have hlb : ∀ t ∈ s :: l, m ≤ t.value := by
        intro t ht
        rcases List.mem_cons.mp ht with h | h
        · subst h; exact hminle
        · exact hminlb t h
      have hmx : ∃ t ∈ s :: l, t.value = M := by
        rcases hmaxmem with hMv | ⟨sx, hsx, hMv⟩
        · exact ⟨s, List.mem_cons_self s l, hMv.symm⟩
        · exact ⟨sx, List.mem_cons_of_mem s hsx, hMv.symm⟩
      have hmn : ∃ t ∈ s :: l, t.value = m := by
        rcases hminmem with hmv | ⟨sn, hsn, hmv⟩
        · exact ⟨s, List.mem_cons_self s l, hmv.symm⟩
        · exact ⟨sn, List.mem_cons_of_mem s hsn, hmv.symm⟩
      obtain ⟨mx, hmxmem, hmxval⟩ := hmx
      obtain ⟨mn, hmnmem, hmnval⟩ := hmn
      refine ⟨mx, hmxmem, mn, hmnmem, ?_, ?_, ?_⟩
      · intro t ht; rw [hmxval]; exact hub t ht
      · intro t ht; rw [hmnval]; exact hlb t ht
      · rw [hdelta, Int.toNat_of_nonneg (sub_nonneg.mpr hmle), hmxval, hmnval]

/-- C1 witness: the spec scenario buffer `[80, 95, 110]` concretely. -/
theorem calculate_window_delta_spec_witness :
    2 ≤ ([⟨0, 80⟩, ⟨10, 95⟩, ⟨20, 110⟩] : List Sample).length ∧
    ∃ mx ∈ ([⟨0, 80⟩, ⟨10, 95⟩, ⟨20, 110⟩] : List Sample), ∃ mn ∈
        ([⟨0, 80⟩, ⟨10, 95⟩, ⟨20, 110⟩] : List Sample),
      (∀ s ∈ ([⟨0, 80⟩, ⟨10, 95⟩, ⟨20, 110⟩] : List Sample), s.value ≤ mx.value) ∧
      (∀ s ∈ ([⟨0, 80⟩, ⟨10, 95⟩, ⟨20, 110⟩] : List Sample), mn.value ≤ s.value) ∧
      (prv_calculate_window_delta_bpm
          ([⟨0, 80⟩, ⟨10, 95⟩, ⟨20, 110⟩] : List Sample) : Int)
        = mx.value - mn.value :=
  ⟨by decide,
   (calculate_window_delta_spec [⟨0, 80⟩, ⟨10, 95⟩, ⟨20, 110⟩]).2 (by decide)⟩

/-! ## C2: threshold boundary -/

/-- C2: a spread exactly equal to `HR_ALERT_DELTA_BPM` (30) triggers the
alerting state, and any spread strictly below the threshold (in particular 29)
leaves the whole engine state — alert state included — unchanged. -/
theorem evaluate_hr_alert_threshold :
    (∀ st now regOk,
      (prv_evaluate_hr_alert HR_ALERT_DELTA_BPM now regOk st).alertActive = true) ∧
    (∀ st now regOk d, d < HR_ALERT_DELTA_BPM →
      prv_evaluate_hr_alert d now regOk st = st) := by
  constructor
  · intro st now regOk
    simp [prv_evaluate_hr_alert, prv_set_hr_alert_active, cancelAlertTimer]
  · intro st now regOk d hd
    simp [prv_evaluate_hr_alert, hd]

/-- C2 witness: at threshold 30 the alert turns on; at 29 the state is left
untouched. -/
theorem evaluate_hr_alert_threshold_witness :
    (prv_evaluate_hr_alert HR_ALERT_DELTA_BPM 100 true
        ⟨[], false, none, 0, 0, 0, 0⟩).alertActive = true ∧
    prv_evaluate_hr_alert 29 100 true ⟨[], false, none, 0, 0, 0, 0⟩
      = ⟨[], false, none, 0, 0, 0, 0⟩ :=
  ⟨evaluate_hr_alert_threshold.1 ⟨[], false, none, 0, 0, 0, 0⟩ 100 true,
   evaluate_hr_alert_threshold.2 ⟨[], false, none, 0, 0, 0, 0⟩ 100 true 29
     (by decide)⟩

/-! ## C7: non-positive raw samples are silently dropped -/

/-- C7: for every state and every `raw_value ≤ 0`, recording is a no-op at both
levels: `prv_store_raw_hr_sample` returns the buffer unchanged, and a tick of
`prv_handle_heart_rate_update` whose raw metric reading is not positive leaves
the sample window, the stored window spread, the alert state (flag and timer)
and the vibration count all unchanged. -/
theorem invalid_raw_sample_noop :
    (∀ raw now buf, raw ≤ 0 → prv_store_raw_hr_sample raw now buf = buf) ∧
    (∀ (fm rm : MetricReading) now regOk st, rm.value ≤ 0 →
      (prv_handle_heart_rate_update fm rm now regOk st).samples = st.samples ∧
      (prv_handle_heart_rate_update fm rm now regOk st).lastWindowDelta
        = st.lastWindowDelta ∧
      (prv_handle_heart_rate_update fm rm now regOk st).alertActive
        = st.alertActive ∧
      (prv_handle_heart_rate_update fm rm now regOk st).alertTimer
        = st.alertTimer ∧
      (prv_handle_heart_rate_update fm rm now regOk st).vibeCount
        = st.vibeCount) := by
  constructor
  · intro raw now buf h
    simp [prv_store_raw_hr_sample, h]
  · intro fm rm now regOk st h
    have hm : prv_get_heart_rate_metric rm ≤ 0 := by
      simp only [prv_get_heart_rate_metric]
      split
      · exact le_refl 0
      · split
        · omega
        · exact le_refl 0
    simp [prv_handle_heart_rate_update, not_lt.mpr hm]

/-- C7 witness: recording a reading of `0` (and of `-5`) changes nothing. -/
theorem invalid_raw_sample_noop_witness :
    prv_store_raw_hr_sample (-5) 100 [⟨90, 70⟩] = [⟨90, 70⟩] ∧
    (prv_handle_heart_rate_update ⟨true, 72⟩ ⟨true, 0⟩ 100 true
        ⟨[⟨90, 70⟩], true, some 150, 72, 70, 5, 1⟩).samples = [⟨90, 70⟩] ∧
    (prv_handle_heart_rate_update ⟨true, 72⟩ ⟨true, 0⟩ 100 true
        ⟨[⟨90, 70⟩], true, some 150, 72, 70, 5, 1⟩).lastWindowDelta = 5 ∧
    (prv_handle_heart_rate_update ⟨true, 72⟩ ⟨true, 0⟩ 100 true
        ⟨[⟨90, 70⟩], true, some 150, 72, 70, 5, 1⟩).alertActive = true ∧
    (prv_handle_heart_rate_update ⟨true, 72⟩ ⟨true, 0⟩ 100 true
        ⟨[⟨90, 70⟩], true, some 150, 72, 70, 5, 1⟩).alertTimer = some 150 ∧
    (prv_handle_heart_rate_update ⟨true, 72⟩ ⟨true, 0⟩ 100 true
        ⟨[⟨90, 70⟩], true, some 150, 72, 70, 5, 1⟩).vibeCount = 1 :=
  ⟨invalid_raw_sample_noop.1 (-5) 100 [⟨90, 70⟩] (by decide),
   (invalid_raw_sample_noop.2 ⟨true, 72⟩ ⟨true, 0⟩ 100 true
      ⟨[⟨90, 70⟩], true, some 150, 72, 70, 5, 1⟩ (by decide)).1,
   (invalid_raw_sample_noop.2 ⟨true, 72⟩ ⟨true, 0⟩ 100 true
      ⟨[⟨90, 70⟩], true, some 150, 72, 70, 5, 1⟩ (by decide)).2.1,
   (invalid_raw_sample_noop.2 ⟨true, 72⟩ ⟨true, 0⟩ 100 true
      ⟨[⟨90, 70⟩], true, some 150, 72, 70, 5, 1⟩ (by decide)).2.2.1,
   (invalid_raw_sample_noop.2 ⟨true, 72⟩ ⟨true, 0⟩ 100 true
      ⟨[⟨90, 70⟩], true, some 150, 72, 70, 5, 1⟩ (by decide)).2.2.2.1,
   (invalid_raw_sample_noop.2 ⟨true, 72⟩ ⟨true, 0⟩ 100 true
      ⟨[⟨90, 70⟩], true, some 150, 72, 70, 5, 1⟩ (by decide)).2.2.2.2⟩

/-! ## C6: pruning removes exactly the over-age samples -/

lemma prune_eq_self_of_fresh (now : Int) (buf : List Sample)
    (h : ∀ s ∈ buf, now - s.timestamp ≤ HR_ALERT_WINDOW_SEC) :
    prv_prune_old_hr_samples now buf = buf := by
  cases buf with
  | nil => rfl
  | cons s rest =>
      have hs := h s (List.mem_cons_self s rest)
      simp [prv_prune_old_hr_samples, not_lt.mpr hs]

lemma prune_eq_filter (now : Int) (buf : List Sample)
    (hsort : List.Pairwise (fun a b => a.timestamp ≤ b.timestamp) buf) :
    prv_prune_old_hr_samples now buf
      = buf.filter (fun s => decide (now - s.timestamp ≤ HR_ALERT_WINDOW_SEC)) := by
  induction buf with
  | nil => rfl
  | cons s rest ih =>
      rw [List.pairwise_cons] at hsort
      obtain ⟨hhead, htail⟩ := hsort
      by_cases hold : now - s.timestamp > HR_ALERT_WINDOW_SEC
      · rw [show prv_prune_old_hr_samples now (s :: rest)
              = prv_prune_old_hr_samples now rest by
            simp [prv_prune_old_hr_samples, hold]]
        rw [ih htail, List.filter_cons,
          if_neg (by simp only [decide_eq_true_eq]; omega)]
      · push_neg at hold
        rw [prune_eq_self_of_fresh now (s :: rest) ?_]
        · have hall : ∀ t ∈ s :: rest,
              decide (now - t.timestamp ≤ HR_ALERT_WINDOW_SEC) = true := by
            intro t ht
            rcases List.mem_cons.mp ht with h | h
            · subst h; exact decide_eq_true hold
            · refine decide_eq_true ?_
              have := hhead t h
              omega
          exact (List.filter_eq_self.mpr hall).symm
        · intro t ht
          rcases List.mem_cons.mp ht with h | h
          · subst h; exact hold
          · have := hhead t h; omega

/-- C6: with the window sorted by timestamp (the engine's insertion order),
pruning at time `now` returns exactly the samples with
`now - timestamp ≤ HR_ALERT_WINDOW_SEC` — so a sample aged exactly `W` seconds
is kept while every strictly older sample is removed — and after a record
operation with a valid sample no retained sample is older than `W` seconds
relative to `now`. -/
theorem prune_removes_exactly_old (now : Int) (buf : List Sample)
    (hsort : List.Pairwise (fun a b => a.timestamp ≤ b.timestamp) buf) :
    prv_prune_old_hr_samples now buf
      = buf.filter (fun s => decide (now - s.timestamp ≤ HR_ALERT_WINDOW_SEC)) ∧
    (∀ s ∈ prv_prune_old_hr_samples now buf,
        now - s.timestamp ≤ HR_ALERT_WINDOW_SEC) ∧
    (∀ s ∈ buf, now - s.timestamp ≤ HR_ALERT_WINDOW_SEC →
        s ∈ prv_prune_old_hr_samples now buf) ∧
    (∀ raw, 0 < raw → ∀ s ∈ prv_store_raw_hr_sample raw now buf,
        now - s.timestamp ≤ HR_ALERT_WINDOW_SEC) := by
  have hfil := prune_eq_filter now buf hsort
  refine ⟨hfil, ?_, ?_, ?_⟩
  · intro s hs
    rw [hfil] at hs
    exact of_decide_eq_true (List.mem_filter.mp hs).2
  · intro s hs hfresh
    rw [hfil]
    exact List.mem_filter.mpr ⟨hs, decide_eq_true hfresh⟩
  · intro raw hraw s hs
    rw [prv_store_raw_hr_sample, if_neg (not_le.mpr hraw)] at hs
    simp only [List.mem_append] at hs
    rcases hs with hs | hs
    · have hmem : s ∈ prv_prune_old_hr_samples now buf := by
        by_cases hcap :
            HR_SAMPLE_BUFFER_SIZE ≤ (prv_prune_old_hr_samples now buf).length
        · rw [if_pos hcap] at hs
          exact List.mem_of_mem_tail hs
        · rw [if_neg hcap] at hs
          exact hs
      rw [hfil] at hmem
      exact of_decide_eq_true (List.mem_filter.mp hmem).2
    · simp only [List.mem_singleton] at hs
      subst hs
      simp [HR_ALERT_WINDOW_SEC]

/-- C6 witness: pruning at `now = 100` over samples aged 70, 60 and 10 seconds
drops exactly the 70-second-old one and keeps the one aged exactly `W = 60`. -/
theorem prune_removes_exactly_old_witness :
    List.Pairwise (fun a b => a.timestamp ≤ b.timestamp)
      ([⟨30, 80⟩, ⟨40, 90⟩, ⟨90, 95⟩] : List Sample) ∧
    prv_prune_old_hr_samples 100 [⟨30, 80⟩, ⟨40, 90⟩, ⟨90, 95⟩]
      = ([⟨30, 80⟩, ⟨40, 90⟩, ⟨90, 95⟩] : List Sample).filter
          (fun s => decide (100 - s.timestamp ≤ HR_ALERT_WINDOW_SEC)) ∧
    (∀ s ∈ prv_prune_old_hr_samples 100 [⟨30, 80⟩, ⟨40, 90⟩, ⟨90, 95⟩],
        100 - s.timestamp ≤ HR_ALERT_WINDOW_SEC) :=
  ⟨by decide,
   (prune_removes_exactly_old 100 [⟨30, 80⟩, ⟨40, 90⟩, ⟨90, 95⟩] (by decide)).1,
   (prune_removes_exactly_old 100 [⟨30, 80⟩, ⟨40, 90⟩, ⟨90, 95⟩] (by decide)).2.1⟩

/-! ## C5: capacity bound and oldest-first eviction -/

lemma length_prune_le (now : Int) (buf : List Sample) :
    (prv_prune_old_hr_samples now buf).length ≤ buf.length := by
  induction buf with
  | nil => exact le_refl 0
  | cons s rest ih =>
      by_cases h : now - s.timestamp > HR_ALERT_WINDOW_SEC
      · calc (prv_prune_old_hr_samples now (s :: rest)).length
            = (prv_prune_old_hr_samples now rest).length := by
              simp [prv_prune_old_hr_samples, h]
          _ ≤ rest.length := ih
          _ ≤ (s :: rest).length := by simp
      · simp [prv_prune_old_hr_samples, h]

lemma runStore_eq_drop (inputs : List (Int × Int))
    (hw : RecWindowed inputs) (hpos : ∀ i ∈ inputs, 0 < i.2) :
    runStore [] inputs
      = (inputs.map toSample).drop (inputs.length - HR_SAMPLE_BUFFER_SIZE) := by
  induction inputs using List.reverseRecOn with
  | nil => rfl
  | append_singleton l a ih =>
      rw [RecWindowed, List.pairwise_append] at hw
      obtain ⟨hwl, _, hcross⟩ := hw
      have hposl : ∀ i ∈ l, 0 < i.2 := fun i hi =>
        hpos i (List.mem_append_left _ hi)
      have hB := ih hwl hposl
      set B := runStore [] l with hBdef
      have hstep : runStore [] (l ++ [a])
          = prv_store_raw_hr_sample a.2 a.1 B := by
        rw [runStore, List.foldl_append]
        rfl
      have hBmem : ∀ s ∈ B, a.1 - s.timestamp ≤ HR_ALERT_WINDOW_SEC := by
        intro s hs
        rw [hB] at hs
        have hs2 : s ∈ l.map toSample := List.drop_subset _ _ hs
        obtain ⟨x, hx, hxe⟩ := List.mem_map.mp hs2
        have := (hcross x hx a (List.mem_singleton_self a)).2
        rw [← hxe]
        exact this
      have hprune : prv_prune_old_hr_samples a.1 B = B :=
        prune_eq_self_of_fresh a.1 B hBmem
      have hBlen : B.length = l.length - (l.length - HR_SAMPLE_BUFFER_SIZE) := by
        rw [hB, List.length_drop, List.length_map]
      have hapos : 0 < a.2 := hpos a (List.mem_append_right _ (List.mem_singleton_self a))
      rw [hstep, prv_store_raw_hr_sample, if_neg (not_le.mpr hapos)]
      simp only [hprune]
      by_cases hcap : HR_SAMPLE_BUFFER_SIZE ≤ l.length
      · have hB96 : B.length = HR_SAMPLE_BUFFER_SIZE := by
          rw [hBlen]; unfold HR_SAMPLE_BUFFER_SIZE at hcap ⊢; omega
        rw [if_pos (le_of_eq hB96.symm)]
        have htail : B.tail
            = (l.map toSample).drop ((l.length - HR_SAMPLE_BUFFER_SIZE) + 1) := by
          rw [hB, List.tail_drop]
        have harith : (l ++ [a]).length - HR_SAMPLE_BUFFER_SIZE
            = (l.length - HR_SAMPLE_BUFFER_SIZE) + 1 := by
          simp only [List.length_append, List.length_singleton]
          unfold HR_SAMPLE_BUFFER_SIZE at hcap ⊢; omega
        have hle : (l.length - HR_SAMPLE_BUFFER_SIZE) + 1 ≤ (l.map toSample).length := by
          rw [List.length_map]
          unfold HR_SAMPLE_BUFFER_SIZE at hcap ⊢; omega
        rw [htail, List.map_append, harith,
          List.drop_append_of_le_length hle]
        rfl
      · push_neg at hcap
        have hB96 : B.length < HR_SAMPLE_BUFFER_SIZE := by
          rw [hBlen]; omega
        rw [if_neg (not_le.mpr hB96)]
        have hdrop0 : l.length - HR_SAMPLE_BUFFER_SIZE = 0 := by omega
        have hdrop0' : (l ++ [a]).length - HR_SAMPLE_BUFFER_SIZE = 0 := by
          simp only [List.length_append, List.length_singleton]
          unfold HR_SAMPLE_BUFFER_SIZE at hcap ⊢; omega
        rw [hB, hdrop0, hdrop0', List.drop_zero, List.drop_zero, List.map_append]
        rfl

/-- C5: the window retains at most `HR_SAMPLE_BUFFER_SIZE` (96) samples at all
times — a record operation on a buffer within capacity stays within capacity,
evicting the single oldest sample when full — and after recording `96 + k`
valid samples all within the window duration starting from the empty buffer,
the retained window is exactly the `96` most-recent samples (the input list
with its `k` oldest entries dropped). -/
theorem sample_buffer_capacity :
    (∀ raw now buf, buf.length ≤ HR_SAMPLE_BUFFER_SIZE →
      (prv_store_raw_hr_sample raw now buf).length ≤ HR_SAMPLE_BUFFER_SIZE) ∧
    (∀ (inputs : List (Int × Int)) (k : Nat),
      RecWindowed inputs → (∀ i ∈ inputs, 0 < i.2) →
      inputs.length = HR_SAMPLE_BUFFER_SIZE + k →
      runStore [] inputs = (inputs.map toSample).drop k ∧
      (runStore [] inputs).length = HR_SAMPLE_BUFFER_SIZE) := by
  constructor
  · intro raw now buf hlen
    rw [prv_store_raw_hr_sample]
    by_cases hraw : raw ≤ 0
    · rw [if_pos hraw]; exact hlen
    · rw [if_neg hraw]
      have hp : (prv_prune_old_hr_samples now buf).length ≤ buf.length :=
        length_prune_le now buf
      dsimp only
      split
      · rename_i hcap
        simp only [List.length_append, List.length_tail, List.length_singleton]
        unfold HR_SAMPLE_BUFFER_SIZE at hcap hlen ⊢; omega
      · rename_i hcap
        push_neg at hcap
        simp only [List.length_append, List.length_singleton]
        unfold HR_SAMPLE_BUFFER_SIZE at hcap hlen ⊢; omega
  · intro inputs k hw hpos hlen
    have h := runStore_eq_drop inputs hw hpos
    have hk : inputs.length - HR_SAMPLE_BUFFER_SIZE = k := by omega
    rw [hk] at h
    refine ⟨h, ?_⟩
    rw [h, List.length_drop, List.length_map, hlen]
    omega

lemma pairwise_replicate_of_rel {α : Type} {R : α → α → Prop} {a : α}
    (h : R a a) : ∀ n, (List.replicate n a).Pairwise R
  | 0 => List.Pairwise.nil
  | n + 1 => by
      rw [List.replicate_succ]
      exact List.Pairwise.cons
        (fun b hb => by rw [List.eq_of_mem_replicate hb]; exact h)
        (pairwise_replicate_of_rel h n)

/-- C5 witness: recording 97 equal-time valid samples leaves exactly the 96
most-recent ones. -/
theorem sample_buffer_capacity_witness :
    runStore [] (List.replicate 97 ((100 : Int), (5 : Int)))
        = ((List.replicate 97 ((100 : Int), (5 : Int))).map toSample).drop 1 ∧
    (runStore [] (List.replicate 97 ((100 : Int), (5 : Int)))).length
        = HR_SAMPLE_BUFFER_SIZE :=
  sample_buffer_capacity.2 (List.replicate 97 ((100 : Int), (5 : Int))) 1
    (pairwise_replicate_of_rel (by decide) 97)
    (fun i hi => by rw [List.eq_of_mem_replicate hi]; decide)
    (by decide)

/-! ## Normal forms of the alert state machine -/

lemma evaluate_hr_alert_qual (d : Nat) (now : Int) (regOk : Bool)
    (st : EngineState) (hd : HR_ALERT_DELTA_BPM ≤ d) :
    prv_evaluate_hr_alert d now regOk st =
      { st with
          alertActive := true,
          alertTimer := if regOk then some (now + HR_ALERT_WINDOW_SEC) else none,
          vibeCount := if st.alertActive then st.vibeCount else st.vibeCount + 1 } := by
  rw [prv_evaluate_hr_alert, if_neg (not_lt.mpr hd)]
  by_cases ha : st.alertActive <;>
    by_cases ht : st.alertTimer.isSome <;>
      simp [prv_set_hr_alert_active, cancelAlertTimer, ha, ht]

lemma handle_update_raw_pos (fm rm : MetricReading) (now : Int) (regOk : Bool)
    (st : EngineState) (hr : 0 < prv_get_heart_rate_metric rm) :
    prv_handle_heart_rate_update fm rm now regOk st =
      prv_evaluate_hr_alert
        (prv_calculate_window_delta_bpm
          (prv_store_raw_hr_sample (prv_get_heart_rate_metric rm) now st.samples))
        now regOk
        { st with
            lastFilteredHr := prv_get_heart_rate_metric fm,
            lastRawHr := prv_get_heart_rate_metric rm,
            samples :=
              prv_store_raw_hr_sample (prv_get_heart_rate_metric rm) now st.samples,
            lastWindowDelta :=
              prv_calculate_window_delta_bpm
                (prv_store_raw_hr_sample (prv_get_heart_rate_metric rm) now
                  st.samples) } := by
  rw [prv_handle_heart_rate_update]
  dsimp only
  rw [if_pos hr]

lemma handle_update_raw_nonpos (fm rm : MetricReading) (now : Int)
    (regOk : Bool) (st : EngineState)
    (hr : ¬ 0 < prv_get_heart_rate_metric rm) :
    prv_handle_heart_rate_update fm rm now regOk st =
      { st with
          lastFilteredHr := prv_get_heart_rate_metric fm,
          lastRawHr := prv_get_heart_rate_metric rm } := by
  rw [prv_handle_heart_rate_update]
  dsimp only
  rw [if_neg hr]

lemma evaluate_hr_alert_nonqual (d : Nat) (now : Int) (regOk : Bool)
    (st : EngineState) (hd : d < HR_ALERT_DELTA_BPM) :
    prv_evaluate_hr_alert d now regOk st = st := by
  rw [prv_evaluate_hr_alert, if_pos hd]

lemma evaluate_preserves_display_fields (d : Nat) (now : Int) (regOk : Bool)
    (st : EngineState) :
    (prv_evaluate_hr_alert d now regOk st).lastFilteredHr = st.lastFilteredHr ∧
    (prv_evaluate_hr_alert d now regOk st).lastWindowDelta = st.lastWindowDelta ∧
    (prv_evaluate_hr_alert d now regOk st).samples = st.samples := by
  rw [prv_evaluate_hr_alert]
  split
  · exact ⟨rfl, rfl, rfl⟩
  · by_cases ha : st.alertActive <;>
      by_cases ht : st.alertTimer.isSome <;>
        simp [prv_set_hr_alert_active, cancelAlertTimer, ha, ht]

lemma applyTick_qual (st : EngineState) (i : TickInput)
    (hq : tickQualifies st i = true) :
    (applyTick st i).alertActive = true ∧
    (applyTick st i).alertTimer
      = (if i.regOk then some (i.now + HR_ALERT_WINDOW_SEC) else none) ∧
    (applyTick st i).vibeCount
      = (if st.alertActive then st.vibeCount else st.vibeCount + 1) := by
  rw [tickQualifies, Bool.and_eq_true, decide_eq_true_eq, decide_eq_true_eq] at hq
  obtain ⟨hr, hd⟩ := hq
  have hd' : HR_ALERT_DELTA_BPM ≤ prv_calculate_window_delta_bpm
      (prv_store_raw_hr_sample (prv_get_heart_rate_metric i.rm) i.now
        st.samples) := hd
  rw [applyTick, handle_update_raw_pos _ _ _ _ _ hr]
  rw [evaluate_hr_alert_qual _ _ _ _ hd']
  exact ⟨rfl, rfl, rfl⟩

lemma runTicks_qualStreak (is : List TickInput) :
    ∀ st : EngineState, st.alertActive = true → qualStreak st is = true →
    (runTicks st is).vibeCount = st.vibeCount ∧
    (runTicks st is).alertActive = true := by
  induction is with
  | nil => intro st ha _; exact ⟨rfl, ha⟩
  | cons i is ih =>
      intro st ha hs
      rw [qualStreak, Bool.and_eq_true, Bool.and_eq_true, Bool.and_eq_true] at hs
      obtain ⟨⟨⟨_, _⟩, hq⟩, hrest⟩ := hs
      obtain ⟨hact, _, hv⟩ := applyTick_qual st i hq
      rw [ha] at hv
      have hstep : runTicks st (i :: is) = runTicks (applyTick st i) is := rfl
      obtain ⟨ihv, iha⟩ := ih (applyTick st i) hact hrest
      rw [hstep, ihv, hv]
      exact ⟨if_pos rfl ▸ rfl, iha⟩

/-! ## C3: the alert clears exactly `W` seconds after the last qualifying tick -/

/-- C3: with timer registration available, (a) every qualifying evaluation —
first trigger or re-trigger while already alerting — leaves the alert active
with the sustain timer re-armed to a fresh expiry exactly
`HR_ALERT_WINDOW_SEC` seconds after the tick; (b) with no further engine
event, the alert is active at exactly the times `now ≤ t < now + W` and clear
from `now + W` on — not before, not after; (c) timer expiry is a pure timeout:
the callback clears the flag and the timer handle and touches nothing else, in
particular it never re-examines the stored spread; (d) a non-qualifying tick
strictly before the armed expiry leaves the alert state and its timer
untouched. -/
theorem alert_clears_exactly_after_window :
    (∀ st now d, HR_ALERT_DELTA_BPM ≤ d →
      (prv_evaluate_hr_alert d now true st).alertActive = true ∧
      (prv_evaluate_hr_alert d now true st).alertTimer
        = some (now + HR_ALERT_WINDOW_SEC)) ∧
    (∀ st now d t, HR_ALERT_DELTA_BPM ≤ d → now ≤ t →
      (alertActiveAt (prv_evaluate_hr_alert d now true st) t = true
        ↔ t < now + HR_ALERT_WINDOW_SEC)) ∧
    (∀ st, hr_alert_timer_callback st
        = { st with alertActive := false, alertTimer := none }) ∧
    (∀ st (i : TickInput) e, st.alertActive = true → st.alertTimer = some e →
      i.now < e → tickQualifies st i = false →
      (applyTick st i).alertActive = true ∧
      (applyTick st i).alertTimer = some e) := by
  refine ⟨?_, ?_, ?_, ?_⟩
  · intro st now d hd
    rw [evaluate_hr_alert_qual _ _ _ _ hd]
    exact ⟨rfl, rfl⟩
  · intro st now d t hd _
    rw [evaluate_hr_alert_qual _ _ _ _ hd]
    simp [alertActiveAt]
  · intro st
    rfl
  · intro st i e ha ht hlt hnq
    rw [tickQualifies] at hnq
    by_cases hr : 0 < prv_get_heart_rate_metric i.rm
    · have hd : ¬ HR_ALERT_DELTA_BPM ≤ tickDelta st i := by
        intro hcon
        rw [decide_eq_true hr, decide_eq_true hcon] at hnq
        exact absurd hnq (by decide)
      have hlt30 : prv_calculate_window_delta_bpm
          (prv_store_raw_hr_sample (prv_get_heart_rate_metric i.rm) i.now
            st.samples) < HR_ALERT_DELTA_BPM := not_le.mp hd
      rw [applyTick, handle_update_raw_pos _ _ _ _ _ hr,
        evaluate_hr_alert_nonqual _ _ _ _ hlt30]
      exact ⟨ha, ht⟩
    · rw [applyTick, handle_update_raw_nonpos _ _ _ _ _ hr]
      exact ⟨ha, ht⟩

/-- C3 witness: triggering at time 100 with spread exactly 30 arms expiry 160;
the alert reads active at time 159; the callback on a concrete alerting state
only clears the flag and handle; a non-qualifying tick at time 110 (spread 5)
leaves the alert and its timer untouched. -/
theorem alert_clears_exactly_after_window_witness :
    ((prv_evaluate_hr_alert 30 100 true ⟨[], false, none, 0, 0, 0, 0⟩).alertActive
        = true ∧
      (prv_evaluate_hr_alert 30 100 true ⟨[], false, none, 0, 0, 0, 0⟩).alertTimer
        = some (100 + HR_ALERT_WINDOW_SEC)) ∧
    (alertActiveAt (prv_evaluate_hr_alert 30 100 true ⟨[], false, none, 0, 0, 0, 0⟩)
        159 = true ↔ 159 < 100 + HR_ALERT_WINDOW_SEC) ∧
    (hr_alert_timer_callback ⟨[], true, some 160, 72, 80, 30, 1⟩
      = { (⟨[], true, some 160, 72, 80, 30, 1⟩ : EngineState) with
            alertActive := false, alertTimer := none }) ∧
    ((applyTick ⟨[⟨100, 80⟩], true, some 160, 72, 80, 30, 1⟩
        ⟨⟨true, 72⟩, ⟨true, 85⟩, 110, true⟩).alertActive = true ∧
      (applyTick ⟨[⟨100, 80⟩], true, some 160, 72, 80, 30, 1⟩
        ⟨⟨true, 72⟩, ⟨true, 85⟩, 110, true⟩).alertTimer = some 160) :=
  ⟨alert_clears_exactly_after_window.1 ⟨[], false, none, 0, 0, 0, 0⟩ 100 30
     (by decide),
   alert_clears_exactly_after_window.2.1 ⟨[], false, none, 0, 0, 0, 0⟩ 100 30 159
     (by decide) (by decide),
   alert_clears_exactly_after_window.2.2.1 ⟨[], true, some 160, 72, 80, 30, 1⟩,
   alert_clears_exactly_after_window.2.2.2
     ⟨[⟨100, 80⟩], true, some 160, 72, 80, 30, 1⟩
     ⟨⟨true, 72⟩, ⟨true, 85⟩, 110, true⟩ 160 rfl rfl (by decide) (by decide)⟩

/-! ## C4: the vibration fires exactly once per alert episode -/

/-- C4: the vibration fires exactly once per Idle→Alerting edge and never while
remaining in Alerting: a qualifying tick while already alerting leaves the
vibration count unchanged; a qualifying tick from idle increments it by
exactly one; and an entry tick followed by any number of consecutive
qualifying ticks within the episode yields a total vibration count of exactly
one for the whole episode. -/
theorem vibration_once_per_episode :
    (∀ st (i : TickInput), st.alertActive = true → tickQualifies st i = true →
      (applyTick st i).vibeCount = st.vibeCount ∧
      (applyTick st i).alertActive = true) ∧
    (∀ st (i : TickInput), st.alertActive = false → tickQualifies st i = true →
      (applyTick st i).vibeCount = st.vibeCount + 1 ∧
      (applyTick st i).alertActive = true) ∧
    (∀ (st0 : EngineState) (i0 : TickInput) (is : List TickInput),
      st0.alertActive = false → tickQualifies st0 i0 = true →
      qualStreak (applyTick st0 i0) is = true →
      (runTicks (applyTick st0 i0) is).vibeCount = st0.vibeCount + 1 ∧
      (runTicks (applyTick st0 i0) is).alertActive = true) := by
  have hstep : ∀ st (i : TickInput), tickQualifies st i = true →
      (applyTick st i).vibeCount
        = (if st.alertActive then st.vibeCount else st.vibeCount + 1) ∧
      (applyTick st i).alertActive = true := by
    intro st i hq
    obtain ⟨ha, _, hv⟩ := applyTick_qual st i hq
    exact ⟨hv, ha⟩
  refine ⟨?_, ?_, ?_⟩
  · intro st i ha hq
    obtain ⟨hv, hact⟩ := hstep st i hq
    rw [ha] at hv
    simp only [if_true] at hv
    exact ⟨hv, hact⟩
  · intro st i ha hq
    obtain ⟨hv, hact⟩ := hstep st i hq
    rw [ha] at hv
    simp only [Bool.false_eq_true, if_false] at hv
    exact ⟨hv, hact⟩
  · intro st0 i0 is ha hq hs
    obtain ⟨hv, hact⟩ := hstep st0 i0 hq
    rw [ha] at hv
    simp only [Bool.false_eq_true, if_false] at hv
    obtain ⟨hrv, hra⟩ := runTicks_qualStreak is (applyTick st0 i0) hact hs
    exact ⟨by rw [hrv, hv], hra⟩

/-- C4 witness: a qualifying entry tick (spread exactly 30) followed by a
further qualifying tick while alerting yields exactly one vibration total. -/
theorem vibration_once_per_episode_witness :
    (runTicks
        (applyTick ⟨[⟨100, 80⟩], false, none, 0, 0, 0, 0⟩
          ⟨⟨true, 72⟩, ⟨true, 110⟩, 101, true⟩)
        [⟨⟨true, 72⟩, ⟨true, 111⟩, 102, true⟩]).vibeCount
      = (⟨[⟨100, 80⟩], false, none, 0, 0, 0, 0⟩ : EngineState).vibeCount + 1 ∧
    (runTicks
        (applyTick ⟨[⟨100, 80⟩], false, none, 0, 0, 0, 0⟩
          ⟨⟨true, 72⟩, ⟨true, 110⟩, 101, true⟩)
        [⟨⟨true, 72⟩, ⟨true, 111⟩, 102, true⟩]).alertActive = true :=
  vibration_once_per_episode.2.2 ⟨[⟨100, 80⟩], false, none, 0, 0, 0, 0⟩
    ⟨⟨true, 72⟩, ⟨true, 110⟩, 101, true⟩
    [⟨⟨true, 72⟩, ⟨true, 111⟩, 102, true⟩]
    rfl (by decide) (by decide)

/-! ## C8: the filtered display does NOT hold its last value -/

/-- C8 counterexample: with a previously displayed filtered reading of 72 BPM
(display "72 BPM | Δ5"), a tick on which the filtered metric is unavailable
overwrites `s_last_filtered_hr` with 0 and the display reverts to the
placeholder — the last-known value is not held. -/
theorem display_hold_counterexample :
    prv_update_hr_display ⟨[], false, none, 72, 80, 5, 0⟩ = "72 BPM | Δ5" ∧
    (prv_handle_heart_rate_update ⟨false, 72⟩ ⟨false, 80⟩ 100 true
        ⟨[], false, none, 72, 80, 5, 0⟩).lastFilteredHr = 0 ∧
    prv_update_hr_display
        (prv_handle_heart_rate_update ⟨false, 72⟩ ⟨false, 80⟩ 100 true
          ⟨[], false, none, 72, 80, 5, 0⟩) = "-- BPM" :=
  ⟨rfl, rfl, rfl⟩

/-- C8 amended: on every tick where the filtered heart-rate metric is
unavailable, the stored filtered value is overwritten with 0 and the display
shows the fixed "-- BPM" placeholder — the prior displayed reading is
discarded, not held.  (The sample window, the stored spread and the alert
state are not affected by filtered-metric unavailability itself.) -/
theorem display_resets_on_unavailable_filtered (fm rm : MetricReading)
    (now : Int) (regOk : Bool) (st : EngineState)
    (hf : fm.accessible = false) :
    (prv_handle_heart_rate_update fm rm now regOk st).lastFilteredHr = 0 ∧
    prv_update_hr_display (prv_handle_heart_rate_update fm rm now regOk st)
      = "-- BPM" := by
  have hm : prv_get_heart_rate_metric fm = 0 := by
    rw [prv_get_heart_rate_metric, hf]
    rfl
  have hfv : (prv_handle_heart_rate_update fm rm now regOk st).lastFilteredHr
      = 0 := by
    by_cases hr : 0 < prv_get_heart_rate_metric rm
    · rw [handle_update_raw_pos _ _ _ _ _ hr]
      rw [(evaluate_preserves_display_fields _ _ _ _).1]
      exact hm
    · rw [handle_update_raw_nonpos _ _ _ _ _ hr]
      exact hm
  refine ⟨hfv, ?_⟩
  rw [prv_update_hr_display, hfv]
  rfl

/-- C8 amended-claim witness: concrete instance of the reset behaviour. -/
theorem display_resets_on_unavailable_filtered_witness :
    (prv_handle_heart_rate_update ⟨false, 72⟩ ⟨true, 90⟩ 100 true
        ⟨[⟨95, 88⟩], true, some 150, 72, 88, 5, 1⟩).lastFilteredHr = 0 ∧
    prv_update_hr_display
        (prv_handle_heart_rate_update ⟨false, 72⟩ ⟨true, 90⟩ 100 true
          ⟨[⟨95, 88⟩], true, some 150, 72, 88, 5, 1⟩) = "-- BPM" :=
  display_resets_on_unavailable_filtered ⟨false, 72⟩ ⟨true, 90⟩ 100 true
    ⟨[⟨95, 88⟩], true, some 150, 72, 88, 5, 1⟩ rfl

/-! ## C9: timer-registration failure produces a stuck alarm (code bug) -/

/-- C9 (exhibit of the code's behaviour, contradicting the claim): on a tick
whose spread meets the threshold while timer registration fails
(`regOk = false`, modelling `app_timer_register` returning `NULL`, which the C
code never checks), the engine still enters the alerting state with no timer
armed — so with no later qualifying tick the alert reads active at every
future time: a stuck alarm, exactly what the spec's error-handling design
forbids. -/
theorem alert_stuck_on_timer_failure :
    (prv_evaluate_hr_alert 30 100 false
        ⟨[⟨90, 80⟩, ⟨95, 110⟩], false, none, 72, 110, 30, 0⟩).alertActive
      = true ∧
    (prv_evaluate_hr_alert 30 100 false
        ⟨[⟨90, 80⟩, ⟨95, 110⟩], false, none, 72, 110, 30, 0⟩).alertTimer
      = none ∧
    ∀ t : Int,
      alertActiveAt
        (prv_evaluate_hr_alert 30 100 false
          ⟨[⟨90, 80⟩, ⟨95, 110⟩], false, none, 72, 110, 30, 0⟩) t = true := by
  refine ⟨rfl, rfl, ?_⟩
  intro t
  rfl

/-! ## C10: the alert-flag/timer coupling invariant -/

/-- C10 counterexample: shutdown does not preserve the flag↔timer invariant —
`deinit` on an alerting state with an armed timer cancels the timer but leaves
the active flag set. -/
theorem alert_timer_inv_counterexample :
    AlertTimerInv ⟨[], true, some 160, 72, 80, 30, 1⟩ ∧
    ¬ AlertTimerInv (deinit ⟨[], true, some 160, 72, 80, 30, 1⟩) := by
  constructor
  · rfl
  · intro h
    exact Bool.noConfusion (show (true : Bool) = false from h)

/-- C10 amended: assuming timer registration succeeds, alert activation and
the timer expiry callback preserve (indeed re-establish) "alert flag set iff a
sustain timer is armed", and timer cancellation is guarded so that it is a
no-op when no timer is armed (safe after the timer has fired or was never
registered); shutdown (`deinit`) cancels any armed timer but does not clear
the active flag. -/
theorem alert_timer_inv_preserved :
    (∀ st b now, AlertTimerInv st →
      AlertTimerInv (prv_set_hr_alert_active b true now st)) ∧
    (∀ st, AlertTimerInv (hr_alert_timer_callback st)) ∧
    (∀ st, st.alertTimer = none → cancelAlertTimer st = st) ∧
    (∀ st, (deinit st).alertTimer = none ∧
      (deinit st).alertActive = st.alertActive) := by
  refine ⟨?_, ?_, ?_, ?_⟩
  · intro st b now _
    by_cases hb : b <;>
      by_cases ht : st.alertTimer.isSome <;>
        simp [AlertTimerInv, prv_set_hr_alert_active, cancelAlertTimer, hb, ht]
  · intro st
    rfl
  · intro st ht
    rw [cancelAlertTimer, ht]
    rfl
  · intro st
    constructor
    · rw [deinit, cancelAlertTimer]
      by_cases ht : st.alertTimer.isSome
      · rw [if_pos ht]
      · rw [if_neg ht]
        exact Option.not_isSome_iff_eq_none.mp ht
    · rw [deinit, cancelAlertTimer]
      by_cases ht : st.alertTimer.isSome
      · rw [if_pos ht]
      · rw [if_neg ht]

/-- C10 amended-claim witness: concrete instances of preservation, guarded
cancellation and the shutdown behaviour. -/
theorem alert_timer_inv_preserved_witness :
    AlertTimerInv (prv_set_hr_alert_active true true 100
      ⟨[], false, none, 0, 0, 0, 0⟩) ∧
    AlertTimerInv (hr_alert_timer_callback ⟨[], true, some 160, 72, 80, 30, 1⟩) ∧
    cancelAlertTimer ⟨[], false, none, 0, 0, 0, 0⟩
      = ⟨[], false, none, 0, 0, 0, 0⟩ ∧
    (deinit ⟨[], true, some 160, 72, 80, 30, 1⟩).alertTimer = none :=
  ⟨alert_timer_inv_preserved.1 ⟨[], false, none, 0, 0, 0, 0⟩ true 100 rfl,
   alert_timer_inv_preserved.2.1 ⟨[], true, some 160, 72, 80, 30, 1⟩,
   alert_timer_inv_preserved.2.2.1 ⟨[], false, none, 0, 0, 0, 0⟩ rfl,
   (alert_timer_inv_preserved.2.2.2 ⟨[], true, some 160, 72, 80, 30, 1⟩).1⟩
